import Mathlib

/-! Shallow embedding of the Troia dashboard backend (src/main.py): JSON
values, the in-memory event log and pipeline status record, the handlers
that read or mutate them, and the upstream client adapters, followed by
theorems settling the specification claims. -/

/-- JSON values exchanged by the handlers. Numbers are modelled as rationals
(covering Python ints and floats); object fields keep insertion order, as
Python dicts do. -/
inductive Json where
  | null
  | bool (b : Bool)
  | num (q : ℚ)
  | str (s : String)
  | arr (xs : List Json)
  | obj (fields : List (String × Json))
deriving Repr

/-- Python `d.get(key, default)` on a dict: the stored value when the key is
present (even when that value is None), the default otherwise. -/
def jGet (fs : List (String × Json)) (k : String) (d : Json) : Json :=
  match fs.lookup k with
  | some v => v
  | none => d

/-- Python truthiness of a JSON value, as in `if data.get("completed"):`. -/
def Json.truthy : Json → Bool
  | .null => false
  | .bool b => b
  | .num q => decide (q ≠ 0)
  | .str s => decide (s ≠ "")
  | .arr xs => !xs.isEmpty
  | .obj fs => !fs.isEmpty

/-- Whether a JSON object carries a given top-level key. -/
def Json.hasKey : Json → String → Bool
  | .obj fs, k => (fs.lookup k).isSome
  | _, _ => false

/-- Whether a JSON value is an object (a Python dict). -/
def Json.isObj : Json → Bool
  | .obj _ => true
  | _ => false

/-- Python `x == "s"` for a JSON value x: true exactly when x is that
string (comparisons with non-strings are simply unequal, no raise). -/
def Json.isStrEq : Json → String → Bool
  | .str s, t => s == t
  | _, _ => false

/-- Rendering a JSON value the way a Python f-string (str()) would. Only the
agent-decision message uses it and no claim inspects that text, so container
rendering is abbreviated. -/
def pyStr : Json → String
  | .null => "None"
  | .bool true => "True"
  | .bool false => "False"
  | .num q => toString q
  | .str s => s
  | .arr _ => "[...]"
  | .obj _ => "\x7b...\x7d"

/-- Python `round(x, 1)`: round to one decimal place, ties to even. -/
def pyRound1 (q : ℚ) : ℚ :=
  let n : ℤ := ⌊q * 10⌋
  let f : ℚ := q * 10 - n
  (if f < 1/2 then (n : ℚ) else if 1/2 < f then ((n + 1 : ℤ) : ℚ) else
    if n % 2 = 0 then (n : ℚ) else ((n + 1 : ℤ) : ℚ)) / 10

/-- An entry of the in-memory event log (src/main.py 215-222 and 286-297).
`id` and `timestamp` are assigned by the log at insertion time; the other
fields come from the caller payload and may be any JSON value. -/
structure Event where
  id : Nat
  timestamp : String
  type : Json
  source : Json
  message : Json
  details : Json

/-- The counters nested under `pipeline_status["stats"]` (src/main.py 23-27). -/
structure Stats where
  videos_today : Nat
  videos_this_week : Nat
  total_videos : Nat

/-- The `pipeline_status` record (src/main.py 18-28). `last_updated` is absent
until the first update call, hence the Option. -/
structure PipelineStatus where
  current_stage : Json
  current_video : Json
  progress : Json
  last_completed : Json
  stats : Stats
  last_updated : Option String

/-- Process-wide shared state: the bounded event log (`deque(maxlen=100)`,
held newest-first) and the pipeline status record. -/
structure ServerState where
  event_log : List Event
  pipeline : PipelineStatus

/-- The state at process start (src/main.py 15 and 18-28). -/
def initialState : ServerState :=
  { event_log := []
    pipeline :=
      { current_stage := Json.str "idle"
        current_video := Json.null
        progress := Json.num 0
        last_completed := Json.null
        stats := { videos_today := 0, videos_this_week := 0, total_videos := 0 }
        last_updated := none } }

/-- A caught-exception response `return {"error": str(e)}`; the message tag
stands for the Python exception text. -/
def errObj (m : String) : Json := Json.obj [("error", Json.str m)]

/-- Event construction in `log_event`: the id is the pre-insertion log length
plus one (src/main.py 216). -/
def mkEvent (logLen : Nat) (now : String) (fs : List (String × Json)) : Event :=
  { id := logLen + 1
    timestamp := now
    type := jGet fs "type" (Json.str "info")
    source := jGet fs "source" (Json.str "system")
    message := jGet fs "message" (Json.str "")
    details := jGet fs "details" (Json.obj []) }

/-- POST /api/events/log (src/main.py 210-226). `now` is the UTC timestamp the
handler captures, `body` the parsed JSON body (`none`: parsing raised). An
unparseable or non-dict body raises before `appendleft`, so the caught
exception path returns an error without touching the log. `appendleft` on a
full `deque(maxlen=100)` drops the rightmost (oldest) entry, modelled by
consing at the front and truncating to 100. -/
def log_event (now : String) (body : Option Json) (st : ServerState) :
    ServerState × Json :=
  match body with
  | some (Json.obj fs) =>
    let e := mkEvent st.event_log.length now fs
    ({ st with event_log := (e :: st.event_log).take 100 },
      Json.obj [("status", Json.str "logged"), ("event_id", Json.num e.id)])
  | some _ => (st, errObj "AttributeError")
  | none => (st, errObj "JSONDecodeError")

/-- Python `xs[:limit]` for an arbitrary integer limit: a nonnegative limit
takes a prefix, a negative limit drops that many elements from the end. -/
def pySliceTo (xs : List Event) (limit : Int) : List Event :=
  if 0 ≤ limit then xs.take limit.toNat
  else xs.take (xs.length - (-limit).toNat)

/-- Serialization of a stored event back to the JSON shape built at insertion. -/
def eventToJson (e : Event) : Json :=
  Json.obj [("id", Json.num e.id), ("timestamp", Json.str e.timestamp),
    ("type", e.type), ("source", e.source), ("message", e.message),
    ("details", e.details)]

/-- GET /api/events (src/main.py 228-232): a read-only snapshot,
`list(event_log)[:limit]` plus the currently-held total `len(event_log)`. -/
def get_events (limit : Int) (st : ServerState) : ServerState × Json :=
  (st, Json.obj
    [("events", Json.arr ((pySliceTo st.event_log limit).map eventToJson)),
     ("total", Json.num st.event_log.length)])

/-- The `pipeline_status.update(...)` merge (src/main.py 240-245): payload
fields override, absent fields keep their current value, and `last_updated`
is refreshed. -/
def mergePipeline (now : String) (fs : List (String × Json)) (p : PipelineStatus) :
    PipelineStatus :=
  { p with
    current_stage := jGet fs "stage" p.current_stage
    current_video := jGet fs "video" p.current_video
    progress := jGet fs "progress" p.progress
    last_updated := some now }

/-- The completion mutation (src/main.py 247-253): sets `last_completed` from
the payload video title and increments videos_today and total_videos. Reached
only when `data.get("video", {})` is a dict; a non-dict video raises inside
`.get("title")` instead. -/
def completePipeline (now : String) (vfs : List (String × Json)) (p : PipelineStatus) :
    PipelineStatus :=
  { p with
    last_completed := Json.obj [("title", jGet vfs "title" Json.null),
      ("timestamp", Json.str now)]
    stats := { p.stats with
      videos_today := p.stats.videos_today + 1
      total_videos := p.stats.total_videos + 1 } }

/-- POST /api/pipeline/update (src/main.py 234-257). The merge is applied
first; when the payload carries a truthy `completed`, the handler then
evaluates `data.get("video", {}).get("title")` — if that video value is not a
dict this raises AFTER the merge was applied, and the caught exception path
returns an error while the merged state stands. -/
def update_pipeline (now : String) (body : Option Json) (st : ServerState) :
    ServerState × Json :=
  match body with
  | some (Json.obj fs) =>
    let merged := mergePipeline now fs st.pipeline
    if (jGet fs "completed" Json.null).truthy then
      match jGet fs "video" (Json.obj []) with
      | Json.obj vfs =>
        ({ st with pipeline := completePipeline now vfs merged },
          Json.obj [("status", Json.str "updated")])
      | _ => ({ st with pipeline := merged }, errObj "AttributeError")
    else
      ({ st with pipeline := merged }, Json.obj [("status", Json.str "updated")])
  | some _ => (st, errObj "AttributeError")
  | none => (st, errObj "JSONDecodeError")

/-- Decision construction in `log_agent_decision`: fixed type and source, the
same buffer-length id assignment as `mkEvent` (src/main.py 286-297). -/
def mkDecision (logLen : Nat) (now : String) (fs : List (String × Json)) : Event :=
  { id := logLen + 1
    timestamp := now
    type := Json.str "decision"
    source := Json.str "claude"
    message := Json.str
      ("AUTONOMOUS: " ++ pyStr (jGet fs "action" (Json.str "Unknown action")))
    details := Json.obj [("reason", jGet fs "reason" (Json.str "")),
      ("confidence", jGet fs "confidence" (Json.str "high")),
      ("result", jGet fs "result" (Json.str "pending"))] }

/-- POST /api/agent/decision (src/main.py 281-301): an append of a
decision-typed event, same eviction and id behaviour as `log_event`. -/
def log_agent_decision (now : String) (body : Option Json) (st : ServerState) :
    ServerState × Json :=
  match body with
  | some (Json.obj fs) =>
    let d := mkDecision st.event_log.length now fs
    ({ st with event_log := (d :: st.event_log).take 100 },
      Json.obj [("status", Json.str "logged"), ("decision_id", Json.num d.id)])
  | some _ => (st, errObj "AttributeError")
  | none => (st, errObj "JSONDecodeError")

/-- Serialization of the stats counters. -/
def statsToJson (s : Stats) : Json :=
  Json.obj [("videos_today", Json.num s.videos_today),
    ("videos_this_week", Json.num s.videos_this_week),
    ("total_videos", Json.num s.total_videos)]

/-- Serialization of the pipeline record; `last_updated` is a key only after
the first update call, matching the Python dict. -/
def pipelineToJson (p : PipelineStatus) : Json :=
  Json.obj ([("current_stage", p.current_stage),
    ("current_video", p.current_video), ("progress", p.progress),
    ("last_completed", p.last_completed), ("stats", statsToJson p.stats)] ++
    (match p.last_updated with
     | some t => [("last_updated", Json.str t)]
     | none => []))

/-- GET /api/pipeline/status (src/main.py 259-262): read-only. -/
def get_pipeline_status (st : ServerState) : ServerState × Json :=
  (st, pipelineToJson st.pipeline)

/-- GET /api/agent/status (src/main.py 303-318): a read-only derived summary
over the event log. -/
def get_agent_status (st : ServerState) : ServerState × Json :=
  (st, Json.obj [("mode", Json.str "autonomous"), ("status", Json.str "active"),
    ("last_action",
      match st.event_log.head? with
      | some e => eventToJson e
      | none => Json.null),
    ("decisions_today",
      Json.num (st.event_log.countP (fun e => e.type.isStrEq "decision"))),
    ("capabilities", Json.arr [Json.str "content_scheduling",
      Json.str "video_generation", Json.str "youtube_upload",
      Json.str "error_handling", Json.str "performance_optimization"])])

/-- GET /api/health (src/main.py 53-55). -/
def health (now : String) (st : ServerState) : ServerState × Json :=
  (st, Json.obj [("status", Json.str "healthy"), ("timestamp", Json.str now)])

/-- One inbound request touching the shared in-process state. The adapter
endpoints are stateless and are modelled separately below. -/
inductive Req where
  | logEvent (now : String) (body : Option Json)
  | agentDecision (now : String) (body : Option Json)
  | pipelineUpdate (now : String) (body : Option Json)
  | getEvents (limit : Int)
  | getPipelineStatus
  | getAgentStatus
  | healthCheck (now : String)

/-- State transition of one request. -/
def stepReq (st : ServerState) : Req → ServerState
  | .logEvent now body => (log_event now body st).1
  | .agentDecision now body => (log_agent_decision now body st).1
  | .pipelineUpdate now body => (update_pipeline now body st).1
  | .getEvents limit => (get_events limit st).1
  | .getPipelineStatus => (get_pipeline_status st).1
  | .getAgentStatus => (get_agent_status st).1
  | .healthCheck now => (health now st).1

/-- The state after serving a sequence of requests. -/
def run (st : ServerState) (reqs : List Req) : ServerState :=
  reqs.foldl stepReq st

/-- Observable behaviour of one outbound HTTP call: either the client raised
(transport error, timeout), or a response arrived with a status code and a
body whose `.json()` either parses or raises (the Except.error case). -/
inductive Upstream where
  | exn (msg : String)
  | resp (status : Nat) (body : Except String Json)

/-- Python iteration over a JSON value (`for x in v`): lists yield their
elements, dicts yield their keys as strings, strings yield one-character
strings, anything else raises TypeError. -/
def pyIter : Json → Except String (List Json)
  | .arr xs => .ok xs
  | .obj fs => .ok (fs.map (fun kv => Json.str kv.1))
  | .str s => .ok (s.toList.map (fun c => Json.str (String.mk [c])))
  | _ => .error "TypeError"

/-- Python `len(v)`: lists, dicts and strings have a length, others raise. -/
def pyLen : Json → Except String Nat
  | .arr xs => .ok xs.length
  | .obj fs => .ok fs.length
  | .str s => .ok s.length
  | _ => .error "TypeError"

/-- GET /api/workflow/status (src/main.py 57-77). There is no status-code
check: the body is reshaped whatever the status was; any raise inside the try
block (transport, `.json()`, `.get` on a non-dict) yields the error result. -/
def get_workflow_status (key : String) (up : Upstream) : Json :=
  if key = "" then
    Json.obj [("error", Json.str "N8N_API_KEY not configured"),
      ("active", Json.bool false)]
  else
    match up with
    | .exn m => Json.obj [("error", Json.str m), ("active", Json.bool false)]
    | .resp _ body =>
      match body with
      | .error m => Json.obj [("error", Json.str m), ("active", Json.bool false)]
      | .ok (Json.obj fs) =>
        Json.obj [("id", jGet fs "id" Json.null), ("name", jGet fs "name" Json.null),
          ("active", jGet fs "active" Json.null),
          ("updatedAt", jGet fs "updatedAt" Json.null),
          ("triggerCount", jGet fs "triggerCount" (Json.num 0))]
      | .ok _ =>
        Json.obj [("error", Json.str "AttributeError"), ("active", Json.bool false)]

/-- Projection of one execution record (src/main.py 94-100); raises on a
non-dict element. -/
def execProj : Json → Except String Json
  | Json.obj fs => .ok (Json.obj [("id", jGet fs "id" Json.null),
      ("status", jGet fs "status" Json.null),
      ("startedAt", jGet fs "startedAt" Json.null),
      ("stoppedAt", jGet fs "stoppedAt" Json.null),
      ("mode", jGet fs "mode" Json.null)])
  | _ => .error "AttributeError"

/-- GET /api/workflow/executions (src/main.py 79-103). Like the status
adapter, the response status code is never checked. -/
def get_workflow_executions (key : String) (up : Upstream) : Json :=
  if key = "" then
    Json.obj [("error", Json.str "N8N_API_KEY not configured"),
      ("executions", Json.arr [])]
  else
    match up with
    | .exn m => Json.obj [("error", Json.str m), ("executions", Json.arr [])]
    | .resp _ body =>
      match body with
      | .error m => Json.obj [("error", Json.str m), ("executions", Json.arr [])]
      | .ok (Json.obj fs) =>
        match pyIter (jGet fs "data" (Json.arr [])) >>= List.mapM execProj with
        | .ok projected => Json.obj [("executions", Json.arr projected)]
        | .error m => Json.obj [("error", Json.str m), ("executions", Json.arr [])]
      | .ok _ =>
        Json.obj [("error", Json.str "AttributeError"), ("executions", Json.arr [])]

/-- GET /api/credits/elevenlabs (src/main.py 105-127). On a 200 response the
handler reads character_count (default 0) and character_limit (default 1
inside the percentage formula but default 10000 in the echoed field) and
computes `round(count / max(limit, 1) * 100, 1)`; non-numeric operands raise
and are caught by the outer try. On a non-200 status a fixed
limited-permissions payload is returned without touching the body. -/
def get_elevenlabs_credits (key : String) (up : Upstream) : Json :=
  if key = "" then
    Json.obj [("error", Json.str "ELEVENLABS_API_KEY not configured")]
  else
    match up with
    | .exn m => Json.obj [("error", Json.str m)]
    | .resp status body =>
      if status = 200 then
        match body with
        | .error m => Json.obj [("error", Json.str m)]
        | .ok (Json.obj fs) =>
          match jGet fs "character_count" (Json.num 0),
                jGet fs "character_limit" (Json.num 1) with
          | Json.num c, Json.num l =>
            Json.obj [("character_count", Json.num c),
              ("character_limit", jGet fs "character_limit" (Json.num 10000)),
              ("tier", jGet fs "tier" (Json.str "free")),
              ("usage_percentage", Json.num (pyRound1 (c / max l 1 * 100)))]
          | _, _ => Json.obj [("error", Json.str "TypeError")]
        | .ok _ => Json.obj [("error", Json.str "AttributeError")]
      else
        Json.obj [("error", Json.str "API key may have limited permissions"),
          ("character_count", Json.str "N/A"),
          ("character_limit", Json.str "N/A"),
          ("usage_percentage", Json.num 0)]

/-- GET /api/credits/openai (src/main.py 129-149). The 200 branch returns a
static payload and never reads the body; the non-200 branch returns a payload
with status and message fields but no error field. -/
def get_openai_credits (key : String) (up : Upstream) : Json :=
  if key = "" then
    Json.obj [("error", Json.str "OPENAI_API_KEY not configured"),
      ("status", Json.str "not_configured")]
  else
    match up with
    | .exn m => Json.obj [("error", Json.str m)]
    | .resp status _ =>
      if status = 200 then
        Json.obj [("status", Json.str "active"),
          ("note", Json.str "OpenAI does not provide real-time credit balance via API"),
          ("check_at", Json.str "https://platform.openai.com/usage")]
      else
        Json.obj [("status", Json.str "error"), ("message", Json.str "API key invalid")]

/-- GET /api/services/video-api (src/main.py 151-166). There is no credential
gate: an unset VIDEO_API_URL falls back to a hardcoded URL and the request is
still made, so the adapter is a function of the upstream outcome alone. -/
def get_video_api_status (up : Upstream) : Json :=
  match up with
  | .exn m => Json.obj [("status", Json.str "offline"), ("error", Json.str m)]
  | .resp status body =>
    if status = 200 then
      match body with
      | .ok d => Json.obj [("status", Json.str "healthy"), ("data", d)]
      | .error m => Json.obj [("status", Json.str "offline"), ("error", Json.str m)]
    else
      Json.obj [("status", Json.str "unhealthy"), ("code", Json.num status)]

/-- Projection of one application record (src/main.py 183-189); raises on a
non-dict element. -/
def appProj : Json → Except String Json
  | Json.obj fs => .ok (Json.obj [("name", jGet fs "name" Json.null),
      ("status", jGet fs "status" Json.null), ("fqdn", jGet fs "fqdn" Json.null)])
  | _ => .error "AttributeError"

/-- GET /api/services/coolify (src/main.py 168-194). On a 200 response the
handler takes `len(apps)` and a comprehension over `apps`; both can raise on
unexpected shapes (len first, matching evaluation order of the dict literal). -/
def get_coolify_status (token : String) (up : Upstream) : Json :=
  if token = "" then
    Json.obj [("error", Json.str "COOLIFY_API_TOKEN not configured")]
  else
    match up with
    | .exn m => Json.obj [("error", Json.str m)]
    | .resp status body =>
      if status = 200 then
        match body with
        | .error m => Json.obj [("error", Json.str m)]
        | .ok apps =>
          match pyLen apps, pyIter apps >>= List.mapM appProj with
          | .ok n, .ok projected =>
            Json.obj [("total_apps", Json.num n), ("applications", Json.arr projected)]
          | .error m, _ => Json.obj [("error", Json.str m)]
          | _, .error m => Json.obj [("error", Json.str m)]
      else
        Json.obj [("error", Json.str "Failed to fetch"), ("code", Json.num status)]

set_option maxRecDepth 100000

/-- Helper: no request ever touches the videos_this_week counter. -/
theorem stepReq_videos_this_week (st : ServerState) (r : Req) :
    (stepReq st r).pipeline.stats.videos_this_week
      = st.pipeline.stats.videos_this_week := by
  cases r with
  | logEvent now body =>
    cases body with
    | none => rfl
    | some j => cases j <;> rfl
  | agentDecision now body =>
    cases body with
    | none => rfl
    | some j => cases j <;> rfl
  | pipelineUpdate now body =>
    cases body with
    | none => rfl
    | some j =>
      cases j with
      | obj fs =>
        show (update_pipeline now (some (Json.obj fs)) st).1.pipeline.stats.videos_this_week = _
        unfold update_pipeline
        by_cases h : (jGet fs "completed" Json.null).truthy
        · simp only [h, if_true]
          cases hv : jGet fs "video" (Json.obj []) <;> rfl
        · simp only [h]
          rfl
      | null => rfl
      | bool b => rfl
      | num q => rfl
      | str s => rfl
      | arr xs => rfl
  | getEvents limit => rfl
  | getPipelineStatus => rfl
  | getAgentStatus => rfl
  | healthCheck now => rfl

/-- Helper: every step keeps the event log within the deque capacity. -/
theorem stepReq_log_le (st : ServerState) (r : Req)
    (h : st.event_log.length ≤ 100) : (stepReq st r).event_log.length ≤ 100 := by
  cases r with
  | logEvent now body =>
    cases body with
    | none => exact h
    | some j =>
      cases j <;> try exact h
      case obj fs =>
        simp only [stepReq, log_event, List.length_take]
        omega
  | agentDecision now body =>
    cases body with
    | none => exact h
    | some j =>
      cases j <;> try exact h
      case obj fs =>
        simp only [stepReq, log_agent_decision, List.length_take]
        omega
  | pipelineUpdate now body =>
    cases body with
    | none => exact h
    | some j =>
      cases j <;> try exact h
      case obj fs =>
        show (update_pipeline now (some (Json.obj fs)) st).1.event_log.length ≤ 100
        unfold update_pipeline
        by_cases hc : (jGet fs "completed" Json.null).truthy
        · simp only [hc, if_true]
          cases hv : jGet fs "video" (Json.obj []) <;> exact h
        · simp only [hc]
          exact h
  | getEvents limit => exact h
  | getPipelineStatus => exact h
  | getAgentStatus => exact h
  | healthCheck now => exact h

/-- Helper: unfolding one request of a run. -/
theorem run_cons (st : ServerState) (r : Req) (rs : List Req) :
    run st (r :: rs) = run (stepReq st r) rs := rfl

/-- Helper: runs preserve the capacity bound. -/
theorem run_log_le (reqs : List Req) (st : ServerState)
    (h : st.event_log.length ≤ 100) : (run st reqs).event_log.length ≤ 100 := by
  induction reqs generalizing st with
  | nil => exact h
  | cons r rs ih => exact ih _ (stepReq_log_le st r h)

/-- Helper: runs never modify videos_this_week. -/
theorem run_videos_this_week (reqs : List Req) (st : ServerState) :
    (run st reqs).pipeline.stats.videos_this_week
      = st.pipeline.stats.videos_this_week := by
  induction reqs generalizing st with
  | nil => rfl
  | cons r rs ih => rw [run_cons, ih, stepReq_videos_this_week]

/-- C1 is false on the code: the event id is `len(event_log) + 1`, so after
100 appends the log is full and both the 101st and the 102nd append are
assigned event id 101 — the newly assigned id is not strictly greater than
every previously assigned id, and two events receive the same id. -/
theorem C1_counterexample :
    (log_event "t" (some (Json.obj []))
       (run initialState (List.replicate 100 (Req.logEvent "t" (some (Json.obj [])))))).2
      = Json.obj [("status", Json.str "logged"), ("event_id", Json.num 101)] ∧
    (log_event "t" (some (Json.obj []))
       (log_event "t" (some (Json.obj []))
         (run initialState (List.replicate 100 (Req.logEvent "t" (some (Json.obj [])))))).1).2
      = Json.obj [("status", Json.str "logged"), ("event_id", Json.num 101)] :=
  ⟨by rfl, by rfl⟩

/-- C1 amended: each newly assigned event id (on either append endpoint)
equals the pre-insertion log size plus one; because the log never holds more
than 100 events, ids strictly increase only while the log is filling and
repeat at 101 once it is full — they are not unique over the process
lifetime. -/
theorem C1_amended_id_assignment :
    (∀ (reqs : List Req) (now : String) (fs : List (String × Json)),
      (log_event now (some (Json.obj fs)) (run initialState reqs)).2
        = Json.obj [("status", Json.str "logged"),
            ("event_id", Json.num (((run initialState reqs).event_log.length + 1 : ℕ)))]) ∧
    (∀ (reqs : List Req) (now : String) (fs : List (String × Json)),
      (log_agent_decision now (some (Json.obj fs)) (run initialState reqs)).2
        = Json.obj [("status", Json.str "logged"),
            ("decision_id", Json.num (((run initialState reqs).event_log.length + 1 : ℕ)))]) ∧
    (∀ reqs : List Req, (run initialState reqs).event_log.length ≤ 100) :=
  ⟨fun _ _ _ => rfl, fun _ _ _ => rfl,
   fun reqs => run_log_le reqs initialState (by decide)⟩

/-- C2: over every request sequence from process start the log holds at most
100 events; each successful append inserts at the front (newest first) and
keeps only the 99 most recent older entries, so a full log implicitly evicts
its oldest entry; concretely, after 101 appends the very first event (id 1)
is gone from the log, while after 100 appends it is still there. -/
theorem C2_capacity_and_eviction :
    (∀ reqs : List Req, (run initialState reqs).event_log.length ≤ 100) ∧
    (∀ (now : String) (fs : List (String × Json)) (st : ServerState),
      (log_event now (some (Json.obj fs)) st).1.event_log
        = mkEvent st.event_log.length now fs :: st.event_log.take 99) ∧
    (∀ (now : String) (fs : List (String × Json)) (st : ServerState),
      (log_agent_decision now (some (Json.obj fs)) st).1.event_log
        = mkDecision st.event_log.length now fs :: st.event_log.take 99) ∧
    (run initialState (List.replicate 101 (Req.logEvent "t" (some (Json.obj []))))).event_log.all
        (fun e => e.id != 1) = true ∧
    (run initialState (List.replicate 100 (Req.logEvent "t" (some (Json.obj []))))).event_log.all
        (fun e => e.id != 1) = false :=
  ⟨fun reqs => run_log_le reqs initialState (by decide),
   fun _ _ _ => rfl, fun _ _ _ => rfl, by rfl, by rfl⟩

/-- C3 is false on the code: the /api/pipeline/update payload with completed
true and the non-dict video value "x" is answered with a structured error
(still HTTP 200), yet the pipeline state has been partially mutated — its
current_video went from null to the string "x". -/
theorem C3_counterexample :
    (update_pipeline "t" (some (Json.obj [("completed", Json.bool true),
        ("video", Json.str "x")])) initialState).2 = errObj "AttributeError" ∧
    (update_pipeline "t" (some (Json.obj [("completed", Json.bool true),
        ("video", Json.str "x")])) initialState).1.pipeline.current_video
      = Json.str "x" ∧
    initialState.pipeline.current_video = Json.null ∧
    Json.str "x" ≠ Json.null :=
  ⟨rfl, rfl, rfl, by simp⟩

/-- C3 amended: an unparseable body or a non-dict body to either POST
endpoint yields a structured error with no mutation, and /api/events/log
never mutates the log on any error response; but /api/pipeline/update, given
a dict payload with a truthy completed flag and a present non-dict video
value, returns an error only after the stage/video/progress/last_updated
merge has already been applied — a partial mutation. -/
theorem C3_amended_no_partial_mutation
    (now : String) (st : ServerState) (body : Option Json) (j : Json)
    (fs : List (String × Json)) (v : Json)
    (hlog : (log_event now body st).2.hasKey "error" = true)
    (hobj : j.isObj = false)
    (ht : (jGet fs "completed" Json.null).truthy = true)
    (hv : jGet fs "video" (Json.obj []) = v)
    (ho : v.isObj = false) :
    (log_event now body st).1 = st ∧
    update_pipeline now none st = (st, errObj "JSONDecodeError") ∧
    update_pipeline now (some j) st = (st, errObj "AttributeError") ∧
    update_pipeline now (some (Json.obj fs)) st
      = ({ st with pipeline := mergePipeline now fs st.pipeline },
         errObj "AttributeError") := by
  refine ⟨?_, rfl, ?_, ?_⟩
  · cases body with
    | none => rfl
    | some b =>
      cases b <;> try rfl
      case obj gs => simp [log_event, Json.hasKey] at hlog
  · cases j <;> try rfl
    case obj gs => simp [Json.isObj] at hobj
  · unfold update_pipeline
    simp only [ht, if_true, hv]
    cases v <;> first | rfl | simp [Json.isObj] at ho

/-- Witness for C3 amended: concrete malformed payloads exercising each
hypothesis. -/
theorem C3_amended_no_partial_mutation_witness :
    ((log_event "t" none initialState).2.hasKey "error" = true ∧
     (Json.str "x").isObj = false ∧
     (jGet [("completed", Json.bool true), ("video", Json.str "y")]
        "completed" Json.null).truthy = true ∧
     jGet [("completed", Json.bool true), ("video", Json.str "y")] "video"
        (Json.obj []) = Json.str "y" ∧
     (Json.str "y").isObj = false) ∧
    ((log_event "t" none initialState).1 = initialState ∧
     update_pipeline "t" none initialState = (initialState, errObj "JSONDecodeError") ∧
     update_pipeline "t" (some (Json.str "x")) initialState
       = (initialState, errObj "AttributeError") ∧
     update_pipeline "t" (some (Json.obj [("completed", Json.bool true),
         ("video", Json.str "y")])) initialState
       = ({ initialState with
             pipeline :=
               mergePipeline "t"
                 [("completed", Json.bool true), ("video", Json.str "y")]
                 initialState.pipeline },
          errObj "AttributeError")) :=
  ⟨⟨by decide, by decide, by decide, rfl, by decide⟩,
   C3_amended_no_partial_mutation "t" initialState none (Json.str "x")
     [("completed", Json.bool true), ("video", Json.str "y")] (Json.str "y")
     (by decide) (by decide) (by decide) rfl (by decide)⟩

/-- C4 is false on the code: invoked without a credential, the TTS adapter
returns only the not-configured error field — none of the fields normally
present in the success result (character_count, character_limit, tier,
usage_percentage) receive a default value; the deployment adapter likewise
returns the error field alone. -/
theorem C4_counterexample :
    get_elevenlabs_credits "" (Upstream.exn "boom")
      = Json.obj [("error", Json.str "ELEVENLABS_API_KEY not configured")] ∧
    (get_elevenlabs_credits "" (Upstream.exn "boom")).hasKey "character_count" = false ∧
    (get_elevenlabs_credits "" (Upstream.exn "boom")).hasKey "usage_percentage" = false ∧
    (get_elevenlabs_credits "k" (Upstream.resp 200 (Except.ok (Json.obj
        [("character_count", Json.num 2500),
         ("character_limit", Json.num 10000)])))).hasKey "character_count" = true ∧
    (get_coolify_status "" (Upstream.exn "boom")).hasKey "total_apps" = false :=
  ⟨rfl, rfl, rfl, rfl, rfl⟩

/-- C4 amended: every credentialed adapter invoked with its credential absent
returns a fixed payload independent of the upstream outcome (no network
attempt) that carries an explicit not-configured error; but only some
adapters include fallbacks for normally-present success fields (workflow
status: active false; executions: empty list; openai: a status field) — the
TTS and deployment adapters return the error field alone. The video-api
adapter takes no credential at all. -/
theorem C4_amended_not_configured :
    (∀ up : Upstream, get_workflow_status "" up
      = Json.obj [("error", Json.str "N8N_API_KEY not configured"),
          ("active", Json.bool false)]) ∧
    (∀ up : Upstream, get_workflow_executions "" up
      = Json.obj [("error", Json.str "N8N_API_KEY not configured"),
          ("executions", Json.arr [])]) ∧
    (∀ up : Upstream, get_openai_credits "" up
      = Json.obj [("error", Json.str "OPENAI_API_KEY not configured"),
          ("status", Json.str "not_configured")]) ∧
    (∀ up : Upstream, get_elevenlabs_credits "" up
      = Json.obj [("error", Json.str "ELEVENLABS_API_KEY not configured")]) ∧
    (∀ up : Upstream, get_coolify_status "" up
      = Json.obj [("error", Json.str "COOLIFY_API_TOKEN not configured")]) :=
  ⟨fun _ => rfl, fun _ => rfl, fun _ => rfl, fun _ => rfl, fun _ => rfl⟩

/-- C5 is false on the code: a non-2xx upstream status is not always
converted to a result carrying an error field — the LLM adapter answers a
500 with status/message fields and no error key (though still as an HTTP 200
payload). -/
theorem C5_counterexample :
    get_openai_credits "k" (Upstream.resp 500 (Except.ok Json.null))
      = Json.obj [("status", Json.str "error"), ("message", Json.str "API key invalid")] ∧
    (get_openai_credits "k" (Upstream.resp 500 (Except.ok Json.null))).hasKey
      "error" = false :=
  ⟨rfl, rfl⟩

/-- C5 amended: transport errors and malformed upstream bodies are caught at
every adapter boundary and yield a result carrying error with the message
(never a protocol-level failure: every adapter is a total map from upstream
outcome to a JSON payload); but non-2xx upstream statuses are not uniformly
converted — openai yields status/message without an error key, video-api
yields status unhealthy plus a code, and the two workflow adapters never
check the status code at all (a non-2xx JSON body is reshaped as a success). -/
theorem C5_amended_failure_policy :
    (∀ m : String, get_workflow_status "k" (Upstream.exn m)
      = Json.obj [("error", Json.str m), ("active", Json.bool false)]) ∧
    (∀ m : String, get_workflow_executions "k" (Upstream.exn m)
      = Json.obj [("error", Json.str m), ("executions", Json.arr [])]) ∧
    (∀ m : String, get_elevenlabs_credits "k" (Upstream.exn m) = errObj m) ∧
    (∀ m : String, get_openai_credits "k" (Upstream.exn m) = errObj m) ∧
    (∀ m : String, get_video_api_status (Upstream.exn m)
      = Json.obj [("status", Json.str "offline"), ("error", Json.str m)]) ∧
    (∀ m : String, get_coolify_status "k" (Upstream.exn m) = errObj m) ∧
    (∀ m : String, get_elevenlabs_credits "k" (Upstream.resp 200 (Except.error m))
      = errObj m) ∧
    (∀ m : String, get_workflow_status "k" (Upstream.resp 404 (Except.error m))
      = Json.obj [("error", Json.str m), ("active", Json.bool false)]) ∧
    (get_video_api_status (Upstream.resp 503 (Except.ok Json.null))
      = Json.obj [("status", Json.str "unhealthy"), ("code", Json.num 503)]) ∧
    ((get_video_api_status (Upstream.resp 503 (Except.ok Json.null))).hasKey
      "error" = false) ∧
    ((get_workflow_status "k" (Upstream.resp 500 (Except.ok (Json.obj
        [("active", Json.bool true)])))).hasKey "error" = false) :=
  ⟨fun _ => rfl, fun _ => rfl, fun _ => rfl, fun _ => rfl, fun _ => rfl,
   fun _ => rfl, fun _ => rfl, fun _ => rfl, rfl, rfl, rfl⟩

/-- C6: the TTS adapter computes usage_percentage as
round(count / max(limit, 1) * 100, 1): for character_count 2500 and
character_limit 10000 the result is 25.0; for character_limit 0 (count
absent, defaulting to 0) the result is 0.0; and for every numeric payload
the computation succeeds with the denominator floored at 1 — never a
division error. -/
theorem C6_usage_percentage :
    get_elevenlabs_credits "k" (Upstream.resp 200 (Except.ok (Json.obj
        [("character_count", Json.num 2500), ("character_limit", Json.num 10000)])))
      = Json.obj [("character_count", Json.num 2500),
          ("character_limit", Json.num 10000), ("tier", Json.str "free"),
          ("usage_percentage", Json.num 25)] ∧
    get_elevenlabs_credits "k" (Upstream.resp 200 (Except.ok (Json.obj
        [("character_limit", Json.num 0)])))
      = Json.obj [("character_count", Json.num 0),
          ("character_limit", Json.num 0), ("tier", Json.str "free"),
          ("usage_percentage", Json.num 0)] ∧
    (∀ c l : ℚ, get_elevenlabs_credits "k" (Upstream.resp 200 (Except.ok (Json.obj
        [("character_count", Json.num c), ("character_limit", Json.num l)])))
      = Json.obj [("character_count", Json.num c), ("character_limit", Json.num l),
          ("tier", Json.str "free"),
          ("usage_percentage", Json.num (pyRound1 (c / max l 1 * 100)))]) := by
  refine ⟨?_, ?_, fun c l => rfl⟩
  · have h : pyRound1 (2500 / max (10000 : ℚ) 1 * 100) = 25 := by norm_num [pyRound1]
    show Json.obj [("character_count", Json.num 2500),
        ("character_limit", Json.num 10000), ("tier", Json.str "free"),
        ("usage_percentage", Json.num (pyRound1 (2500 / max (10000 : ℚ) 1 * 100)))] = _
    rw [h]
  · have h : pyRound1 (0 / max (0 : ℚ) 1 * 100) = 0 := by norm_num [pyRound1]
    show Json.obj [("character_count", Json.num 0),
        ("character_limit", Json.num 0), ("tier", Json.str "free"),
        ("usage_percentage", Json.num (pyRound1 (0 / max (0 : ℚ) 1 * 100)))] = _
    rw [h]

/-- C7: from every pipeline state, an update with completed true and video
title X increments videos_today and total_videos by exactly one (and only
those two counters), sets last_completed to the title X with the capture
time, and reports success. -/
theorem C7_completion_update (st : ServerState) (now : String) :
    (update_pipeline now (some (Json.obj [("completed", Json.bool true),
        ("video", Json.obj [("title", Json.str "X")])])) st).1.pipeline.stats.videos_today
      = st.pipeline.stats.videos_today + 1 ∧
    (update_pipeline now (some (Json.obj [("completed", Json.bool true),
        ("video", Json.obj [("title", Json.str "X")])])) st).1.pipeline.stats.total_videos
      = st.pipeline.stats.total_videos + 1 ∧
    (update_pipeline now (some (Json.obj [("completed", Json.bool true),
        ("video", Json.obj [("title", Json.str "X")])])) st).1.pipeline.stats.videos_this_week
      = st.pipeline.stats.videos_this_week ∧
    (update_pipeline now (some (Json.obj [("completed", Json.bool true),
        ("video", Json.obj [("title", Json.str "X")])])) st).1.pipeline.last_completed
      = Json.obj [("title", Json.str "X"), ("timestamp", Json.str now)] ∧
    (update_pipeline now (some (Json.obj [("completed", Json.bool true),
        ("video", Json.obj [("title", Json.str "X")])])) st).2
      = Json.obj [("status", Json.str "updated")] :=
  ⟨rfl, rfl, rfl, rfl, rfl⟩

/-- C8: from every pipeline state, an update carrying only a stage leaves
current_video, progress, stats and last_completed unchanged while setting
current_stage to that stage and refreshing last_updated; the event log and
the response are untouched and successful. -/
theorem C8_partial_merge (st : ServerState) (now : String) :
    (update_pipeline now (some (Json.obj [("stage", Json.str "rendering")])) st).1.pipeline
      = { st.pipeline with
          current_stage := Json.str "rendering"
          last_updated := some now } ∧
    (update_pipeline now (some (Json.obj [("stage", Json.str "rendering")])) st).1.event_log
      = st.event_log ∧
    (update_pipeline now (some (Json.obj [("stage", Json.str "rendering")])) st).2
      = Json.obj [("status", Json.str "updated")] :=
  ⟨rfl, rfl, rfl⟩

/-- C9: for every log state and every nonnegative limit, the events snapshot
returns the first `limit` entries of the newest-first log together with the
currently-held total (post-eviction, hence capped at 100 by the capacity
invariant) and does not mutate the state; both append endpoints insert at
the front, so the stored order — and hence the snapshot order — is strictly
newest-first insertion order. -/
theorem C9_snapshot (st : ServerState) (limit : Int) (h : 0 ≤ limit)
    (now : String) (fs : List (String × Json)) :
    (get_events limit st).1 = st ∧
    (get_events limit st).2 = Json.obj
      [("events", Json.arr ((st.event_log.take limit.toNat).map eventToJson)),
       ("total", Json.num st.event_log.length)] ∧
    (log_event now (some (Json.obj fs)) st).1.event_log
      = mkEvent st.event_log.length now fs :: st.event_log.take 99 ∧
    (log_agent_decision now (some (Json.obj fs)) st).1.event_log
      = mkDecision st.event_log.length now fs :: st.event_log.take 99 := by
  refine ⟨rfl, ?_, rfl, rfl⟩
  simp [get_events, pySliceTo, h]

/-- Witness for C9 at a concrete state and limit. -/
theorem C9_snapshot_witness :
    (0 : Int) ≤ 2 ∧
    ((get_events 2 initialState).1 = initialState ∧
     (get_events 2 initialState).2 = Json.obj
       [("events", Json.arr ((initialState.event_log.take (2 : Int).toNat).map eventToJson)),
        ("total", Json.num initialState.event_log.length)] ∧
     (log_event "t" (some (Json.obj [])) initialState).1.event_log
       = mkEvent initialState.event_log.length "t" [] :: initialState.event_log.take 99 ∧
     (log_agent_decision "t" (some (Json.obj [])) initialState).1.event_log
       = mkDecision initialState.event_log.length "t" [] :: initialState.event_log.take 99) :=
  ⟨by decide, C9_snapshot initialState 2 (by decide) "t" []⟩

/-- C10: the counter videos_this_week is never modified by any request: over
every request sequence it keeps its starting value, and it starts at 0, so it
stays 0 for the whole process lifetime. -/
theorem C10_videos_this_week_constant :
    (∀ (st : ServerState) (reqs : List Req),
      (run st reqs).pipeline.stats.videos_this_week
        = st.pipeline.stats.videos_this_week) ∧
    initialState.pipeline.stats.videos_this_week = 0 :=
  ⟨fun st reqs => run_videos_this_week reqs st, rfl⟩
